import Mathlib

/-!
Shallow embedding of the Synology NAS client core of this repository
(src/synology.rs, plus the configuration wrapper in src/main.rs).

The HTTP transport (reqwest) is modelled as a pure oracle
`Transport : Request → HttpOutcome`; JSON response bodies are modelled by a
small JSON value type together with parse functions that follow the serde
derive semantics of the Rust structs (field renames, aliases, defaults,
`Option` treating `null` and a missing field as `None`).  Each client
operation is a state-passing function returning its result, the updated
client state, and the list of wire requests it issued (so that "logout is
called exactly once" style properties can be stated).
-/

namespace SynologyBot

/-- JSON values, as produced by serde_json from a response body. -/
inductive Json where
  | null : Json
  | jbool (b : Bool) : Json
  | num (n : Int) : Json
  | str (s : String) : Json
  | arr (elems : List Json) : Json
  | obj (fields : List (String × Json)) : Json

/-- Look up a field of a JSON object by any of the accepted serde names
(rename plus aliases); first matching field wins. -/
def lookupField (fields : List (String × Json)) (names : List String) : Option Json :=
  (fields.find? (fun kv => names.contains kv.1)).map (fun kv => kv.2)

/-- serde: a Rust `bool` deserializes from a JSON boolean only. -/
def parseBool : Json → Except String Bool
  | Json.jbool b => Except.ok b
  | _ => Except.error "invalid type: expected a boolean"

/-- serde: a Rust `String` deserializes from a JSON string only. -/
def parseStr : Json → Except String String
  | Json.str s => Except.ok s
  | _ => Except.error "invalid type: expected a string"

/-- serde: a Rust `i32` deserializes from a JSON number within i32 range. -/
def parseI32 : Json → Except String Int
  | Json.num n =>
      if -2147483648 ≤ n ∧ n ≤ 2147483647 then Except.ok n
      else Except.error "number out of range of i32"
  | _ => Except.error "invalid type: expected an integer"

/-- serde: a Rust `u64` deserializes from a JSON number within u64 range. -/
def parseU64 : Json → Except String Nat
  | Json.num n =>
      if 0 ≤ n ∧ n < 18446744073709551616 then Except.ok n.toNat
      else Except.error "number out of range of u64"
  | _ => Except.error "invalid type: expected an unsigned integer"

/-- serde: the Rust unit type `()` deserializes from JSON `null` only. -/
def parseUnit : Json → Except String Unit
  | Json.null => Except.ok ()
  | _ => Except.error "invalid type: expected null"

/-- serde: a required struct field with no default — absent means error. -/
def reqField (fields : List (String × Json)) (names : List String)
    (p : Json → Except String α) : Except String α :=
  match lookupField fields names with
  | none => Except.error ("missing field " ++ String.intercalate "/" names)
  | some v => p v

/-- serde: an `Option` field — absent or `null` is `None`, otherwise the
payload parse wrapped in `Some`. -/
def optField (fields : List (String × Json)) (names : List String)
    (p : Json → Except String α) : Except String (Option α) :=
  match lookupField fields names with
  | none => Except.ok none
  | some Json.null => Except.ok none
  | some v => (p v).map some

/-- serde: a field with `#[serde(default)]` — absent yields the default,
present parses normally (`null` is not a boolean and fails). -/
def fieldD (fields : List (String × Json)) (names : List String)
    (p : Json → Except String α) (dflt : α) : Except String α :=
  match lookupField fields names with
  | none => Except.ok dflt
  | some v => p v

/-- Mirrors `pub struct SynologyError` (src/synology.rs lines 20–25):
`code: i32` and the optional details list (serde rename "errors"). -/
structure SynologyError where
  code : Int
  error_details : Option (List String)
deriving DecidableEq

/-- Mirrors `SynologyError::get_error_description` (src/synology.rs lines
28–59): the static code-to-description table, total over all codes. -/
def SynologyError.get_error_description (e : SynologyError) : String :=
  if e.code = 100 then "Unknown error."
  else if e.code = 101 then "No parameter of API, method or version."
  else if e.code = 102 then "The requested API does not exist."
  else if e.code = 103 then "The requested method does not exist."
  else if e.code = 104 then "The requested version does not support the functionality."
  else if e.code = 105 then "The logged in session does not have permission."
  else if e.code = 106 then "Session timeout."
  else if e.code = 107 then "Session interrupted by duplicated login."
  else if e.code = 108 then "Failed to upload the file."
  else if e.code = 109 then "The network connection is unstable or the system is busy."
  else if e.code = 110 then "The network connection is unstable or the system is busy."
  else if e.code = 111 then "The network connection is unstable or the system is busy."
  else if e.code = 112 then "Preserve for other purpose."
  else if e.code = 113 then "Preserve for other purpose."
  else if e.code = 114 then "Lost parameters for this API."
  else if e.code = 115 then "Not allowed to upload a file."
  else if e.code = 116 then "Not allowed to perform for a demo site."
  else if e.code = 117 then "The network connection is unstable or the system is busy."
  else if e.code = 118 then "The network connection is unstable or the system is busy."
  else if e.code = 119 then "Invalid session."
  else if e.code = 150 then "Request source IP does not match the login IP."
  else if 120 ≤ e.code ∧ e.code ≤ 149 then "Preserve for other purpose."
  else "Unknown error code."

/-- Mirrors a `reqwest::Error` (transport failure, non-success HTTP status
via `error_for_status`, or a body decode failure of `Response::json`). -/
inductive ReqwestError where
  | mk (msg : String) : ReqwestError
deriving DecidableEq

/-- Mirrors `pub enum SynologyClientError` (src/synology.rs lines 62–72). -/
inductive SynologyClientError where
  | Reqwest (err : ReqwestError) : SynologyClientError
  | Synology (err : SynologyError) : SynologyClientError
  | Generic (msg : String) : SynologyClientError
  | LoginFailed : SynologyClientError
deriving DecidableEq

/-- Mirrors `pub struct AuthData` (src/synology.rs lines 99–102). -/
structure AuthData where
  sid : String
deriving DecidableEq

/-- Mirrors `pub struct FileTime` (src/synology.rs lines 126–131). -/
structure FileTime where
  ctime : Nat
  mtime : Nat
  atime : Nat
deriving DecidableEq

/-- Mirrors `pub struct FileInfo` (src/synology.rs lines 117–124). -/
structure FileInfo where
  name : String
  path : String
  isdir : Bool
  size : Option Nat
  time : Option FileTime
deriving DecidableEq

/-- Mirrors `pub struct FileListData` (src/synology.rs lines 104–109). -/
structure FileListData where
  files : List FileInfo
  total : Int
  offset : Int
deriving DecidableEq

/-- Mirrors `impl From<FileListData> for Vec<FileInfo>` (lines 111–115). -/
def FileListData.toFiles (d : FileListData) : List FileInfo :=
  d.files

/-- Mirrors `pub struct ServiceStatusData` (src/synology.rs lines 133–144):
`service_status: bool` with serde default, and two `Option<bool>` fields
with rename plus alias. -/
structure ServiceStatusData where
  service_status : Bool
  enable_ssh : Option Bool
  status : Option Bool
deriving DecidableEq

/-- Mirrors `impl From<ServiceStatusData> for bool` (src/synology.rs lines
146–152): OR together every plausible boolean field, absent means false. -/
def ServiceStatusData.toBool (d : ServiceStatusData) : Bool :=
  d.service_status || d.enable_ssh.getD false || d.status.getD false

/-- Mirrors `pub struct SynologyResponse<T>` (src/synology.rs lines 13–18). -/
structure SynologyResponse (T : Type) where
  success : Bool
  data : Option T
  error : Option SynologyError

/-- serde derive for `SynologyError`. -/
def parseSynologyError (j : Json) : Except String SynologyError :=
  match j with
  | Json.obj fields => do
      let code ← reqField fields ["code"] parseI32
      let details ← optField fields ["errors"]
        (fun v => match v with
          | Json.arr xs => xs.mapM parseStr
          | _ => Except.error "invalid type: expected an array")
      Except.ok ⟨code, details⟩
  | _ => Except.error "invalid type: expected an object"

/-- serde derive for `SynologyResponse<T>`, parameterised by the payload
deserializer, as `serde_json::from_str::<SynologyResponse<T>>` is. -/
def parseSynologyResponse (pT : Json → Except String T) (j : Json) :
    Except String (SynologyResponse T) :=
  match j with
  | Json.obj fields => do
      let s ← reqField fields ["success"] parseBool
      let d ← optField fields ["data"] pT
      let e ← optField fields ["error"] parseSynologyError
      Except.ok ⟨s, d, e⟩
  | _ => Except.error "invalid type: expected an object"

/-- Deserialization of a raw response body into `SynologyResponse<T>`.
`none` stands for body text that is not syntactically valid JSON. -/
def parseBody (pT : Json → Except String T) : Option Json →
    Except String (SynologyResponse T)
  | none => Except.error "expected value"
  | some j => parseSynologyResponse pT j

/-- serde derive for `AuthData`. -/
def parseAuthData (j : Json) : Except String AuthData :=
  match j with
  | Json.obj fields => do
      let s ← reqField fields ["sid"] parseStr
      Except.ok ⟨s⟩
  | _ => Except.error "invalid type: expected an object"

/-- serde derive for `FileTime`. -/
def parseFileTime (j : Json) : Except String FileTime :=
  match j with
  | Json.obj fields => do
      let c ← reqField fields ["ctime"] parseU64
      let m ← reqField fields ["mtime"] parseU64
      let a ← reqField fields ["atime"] parseU64
      Except.ok ⟨c, m, a⟩
  | _ => Except.error "invalid type: expected an object"

/-- serde derive for `FileInfo`. -/
def parseFileInfo (j : Json) : Except String FileInfo :=
  match j with
  | Json.obj fields => do
      let n ← reqField fields ["name"] parseStr
      let p ← reqField fields ["path"] parseStr
      let d ← reqField fields ["isdir"] parseBool
      let sz ← optField fields ["size"] parseU64
      let tm ← optField fields ["time"] parseFileTime
      Except.ok ⟨n, p, d, sz, tm⟩
  | _ => Except.error "invalid type: expected an object"

/-- serde derive for `FileListData`. -/
def parseFileListData (j : Json) : Except String FileListData :=
  match j with
  | Json.obj fields => do
      let fs ← reqField fields ["files"]
        (fun v => match v with
          | Json.arr xs => xs.mapM parseFileInfo
          | _ => Except.error "invalid type: expected an array")
      let tot ← reqField fields ["total"] parseI32
      let off ← reqField fields ["offset"] parseI32
      Except.ok ⟨fs, tot, off⟩
  | _ => Except.error "invalid type: expected an object"

/-- serde derive for `ServiceStatusData`: `service_status` has a default of
`false` when absent; the other two fields are `Option<bool>` with aliases. -/
def parseServiceStatusData (j : Json) : Except String ServiceStatusData :=
  match j with
  | Json.obj fields => do
      let ss ← fieldD fields ["service_status"] parseBool false
      let es ← optField fields ["enable_ssh", "enable"] parseBool
      let st ← optField fields ["status", "ssh_status"] parseBool
      Except.ok ⟨ss, es, st⟩
  | _ => Except.error "invalid type: expected an object"

/-- A wire request: target URL plus query parameters, in order. -/
structure Request where
  url : String
  params : List (String × String)
deriving DecidableEq

/-- Outcome of one HTTP GET as seen by the client code: `fail` covers a
send failure, a non-success status surfaced by `error_for_status`, or a
failure reading the body text; `ok body` is a successful status whose body
text parses to `body` (`none` when the text is not valid JSON). -/
inductive HttpOutcome where
  | fail (e : ReqwestError) : HttpOutcome
  | ok (body : Option Json) : HttpOutcome

/-- The HTTP transport, modelled as a pure oracle answering each request. -/
def Transport : Type :=
  Request → HttpOutcome

/-- Mirrors the endpoint constants (src/synology.rs lines 9–11). -/
def AUTH_ENDPOINT : String := "/entry.cgi"

/-- FileStation endpoint constant (src/synology.rs line 10). -/
def FILESTATION_ENDPOINT : String := "/entry.cgi"

/-- Terminal endpoint constant (src/synology.rs line 11). -/
def TERMINAL_ENDPOINT : String := "/entry.cgi"

/-- Mirrors `pub struct SynologyClient` (src/synology.rs lines 154–161);
the reqwest `Client` value is replaced by the external `Transport` oracle. -/
structure SynologyClient where
  base_url : String
  username : String
  password : String
  sid : Option String
  force_ipv4 : Bool
deriving DecidableEq

/-- Mirrors `SynologyClient::new` (src/synology.rs lines 164–188). -/
def SynologyClient.new (base_url username password : String)
    (force_ipv4 : Bool) : SynologyClient :=
  ⟨base_url, username, password, none, force_ipv4⟩

/-- Mirrors `SynologyClient::get_url` (src/synology.rs lines 272–274). -/
def SynologyClient.get_url (c : SynologyClient) (endpoint : String) : String :=
  c.base_url ++ "/webapi" ++ endpoint

/-- Masking of one parameter value in `to_curl_command` (lines 306–310). -/
def maskValue (mask_params : List String) (key value : String) : String :=
  if mask_params.contains key then "********" else value

/-- One iteration of the query-string loop of `to_curl_command` (lines
305–318): the accumulator carries the URL so far and the `first_param`
flag; the first parameter is appended with a question mark, the rest with
ampersands, masking applied to the value. -/
def curlStep (mask_params : List String) (acc : String × Bool)
    (kv : String × String) : String × Bool :=
  let pv := maskValue mask_params kv.1 kv.2
  if acc.2 then (acc.1 ++ "?" ++ kv.1 ++ "=" ++ pv, false)
  else (acc.1 ++ "&" ++ kv.1 ++ "=" ++ pv, acc.2)

/-- The query-string building loop of `to_curl_command` (lines 302–318). -/
def buildQueryUrl (url : String) (params : List (String × String))
    (mask_params : List String) : String :=
  (params.foldl (curlStep mask_params) (url, true)).1

/-- Mirrors `SynologyClient::to_curl_command` (src/synology.rs lines
297–324); the `self` receiver is unused in the source. -/
def to_curl_command (url : String) (params : List (String × String))
    (mask_params : List String) : String :=
  let full_url := buildQueryUrl url params mask_params
  "curl -X GET" ++ " \x27" ++ full_url.replace "\x27" "\\\x27" ++ "\x27"

/-- The logout request built in `SynologyClient::logout` (lines 196–204). -/
def logout_request (c : SynologyClient) (s : String) : Request :=
  ⟨c.get_url AUTH_ENDPOINT,
   [("api", "SYNO.API.Auth"), ("version", "3"), ("method", "logout"), ("_sid", s)]⟩

/-- Mirrors `SynologyClient::logout` (src/synology.rs lines 190–227):
no-op when no session is held; otherwise send the logout request and clear
the session id exactly when the HTTP layer reports success (the response
body is never inspected); on failure the error propagates, sid unchanged. -/
def logout (t : Transport) (c : SynologyClient) :
    Except SynologyClientError Unit × SynologyClient × List Request :=
  match c.sid with
  | none => (Except.ok (), c, [])
  | some s =>
    let req := logout_request c s
    match t req with
    | HttpOutcome.fail e => (Except.error (SynologyClientError.Reqwest e), c, [req])
    | HttpOutcome.ok _ => (Except.ok (), { c with sid := none }, [req])

/-- Mirrors `handle_error_response` (src/synology.rs lines 402–412). -/
def handle_error_response (error : Option SynologyError) (operation : String) :
    Except SynologyClientError α :=
  match error with
  | some e => Except.error (SynologyClientError.Synology e)
  | none => Except.error (SynologyClientError.Generic (operation ++ " with unknown error"))

/-- The login request built in `SynologyClient::login` (lines 230–240). -/
def login_request (c : SynologyClient) : Request :=
  ⟨c.get_url AUTH_ENDPOINT,
   [("api", "SYNO.API.Auth"), ("version", "3"), ("method", "login"),
    ("account", c.username), ("passwd", c.password)]⟩

/-- Mirrors `SynologyClient::login` (src/synology.rs lines 229–270): send
the credentials, decode `SynologyResponse<AuthData>` (`Response::json`, so
a decode failure is a reqwest error), store the sid on success, otherwise
defer to `handle_error_response`. -/
def login (t : Transport) (c : SynologyClient) :
    Except SynologyClientError Unit × SynologyClient × List Request :=
  let req := login_request c
  match t req with
  | HttpOutcome.fail e => (Except.error (SynologyClientError.Reqwest e), c, [req])
  | HttpOutcome.ok body =>
    match parseBody parseAuthData body with
    | Except.error e =>
        (Except.error (SynologyClientError.Reqwest
          (ReqwestError.mk ("error decoding response body: " ++ e))), c, [req])
    | Except.ok resp =>
      if resp.success then
        match resp.data with
        | some d => (Except.ok (), { c with sid := some d.sid }, [req])
        | none => (handle_error_response resp.error "Login failed", c, [req])
      else
        (handle_error_response resp.error "Login failed", c, [req])

/-- Mirrors `SynologyClient::ensure_login` (src/synology.rs lines 326–332):
login when no session is held (propagating its error), then report whether
a session is now held. -/
def ensure_login (t : Transport) (c : SynologyClient) :
    Except SynologyClientError Bool × SynologyClient × List Request :=
  match c.sid with
  | some _ => (Except.ok c.sid.isSome, c, [])
  | none =>
    match login t c with
    | (Except.error e, c1, tr) => (Except.error e, c1, tr)
    | (Except.ok _, c1, tr) => (Except.ok c1.sid.isSome, c1, tr)

/-- The request built in `api_request` (src/synology.rs lines 353–362):
the fixed api/version/method/_sid parameters followed by the extras.  The
source unwraps `self.sid`; the unwrap is guarded by the login check, and
`Option.getD` with a dummy default stands in for it. -/
def operation_request (c : SynologyClient) (endpoint api version method : String)
    (additional_params : List (String × String)) : Request :=
  ⟨c.get_url endpoint,
   [("api", api), ("version", version), ("method", method),
    ("_sid", c.sid.getD "")] ++ additional_params⟩

/-- The decode step of `api_request` (src/synology.rs lines 374–399): a
transport failure propagates as a reqwest error; a body that does not parse
as the envelope becomes a `Generic` JSON-parsing error; a successful
envelope with a payload is converted via `R: From<T>`; everything else is
handed to `handle_error_response`. -/
def decode_result (pT : Json → Except String T) (conv : T → R)
    (operation_name : String) : HttpOutcome → Except SynologyClientError R
  | HttpOutcome.fail e => Except.error (SynologyClientError.Reqwest e)
  | HttpOutcome.ok body =>
    match parseBody pT body with
    | Except.error e =>
        Except.error (SynologyClientError.Generic ("JSON parsing error: " ++ e))
    | Except.ok resp =>
      if resp.success then
        match resp.data with
        | some d => Except.ok (conv d)
        | none => handle_error_response resp.error (operation_name ++ " failed")
      else
        handle_error_response resp.error (operation_name ++ " failed")

/-- Mirrors `SynologyClient::api_request` (src/synology.rs lines 335–399):
ensure a session (line 348: on `false` fail with `LoginFailed` without
sending the operation request), then build, send and decode the request. -/
def api_request (pT : Json → Except String T) (conv : T → R)
    (t : Transport) (c : SynologyClient)
    (endpoint api version method : String)
    (additional_params : List (String × String))
    (operation_name : String) :
    Except SynologyClientError R × SynologyClient × List Request :=
  match ensure_login t c with
  | (Except.error e, c1, tr) => (Except.error e, c1, tr)
  | (Except.ok loggedIn, c1, tr) =>
    if !loggedIn then
      (Except.error SynologyClientError.LoginFailed, c1, tr)
    else
      let req := operation_request c1 endpoint api version method additional_params
      (decode_result pT conv operation_name (t req), c1, tr ++ [req])

/-- Mirrors `SynologyClient::list_files` (src/synology.rs lines 414–436):
explicit login, run the executor, always logout afterwards (a logout
failure is only logged), return the executor result. -/
def list_files (t : Transport) (c : SynologyClient) (folder_path : String) :
    Except SynologyClientError (List FileInfo) × SynologyClient × List Request :=
  match login t c with
  | (Except.error e, c1, tr) => (Except.error e, c1, tr)
  | (Except.ok _, c1, tr) =>
    let res := api_request parseFileListData FileListData.toFiles t c1
      FILESTATION_ENDPOINT "SYNO.FileStation.List" "2" "list"
      [("folder_path", folder_path)] ("list files in " ++ folder_path)
    let lo := logout t res.2.1
    (res.1, lo.2.1, tr ++ res.2.2 ++ lo.2.2)

/-- Mirrors `SynologyClient::get_ssh_status` (src/synology.rs lines
438–461): explicit login, run the executor converting the payload to a
boolean, always logout afterwards, return the executor result. -/
def get_ssh_status (t : Transport) (c : SynologyClient) :
    Except SynologyClientError Bool × SynologyClient × List Request :=
  match login t c with
  | (Except.error e, c1, tr) => (Except.error e, c1, tr)
  | (Except.ok _, c1, tr) =>
    let res := api_request parseServiceStatusData ServiceStatusData.toBool t c1
      TERMINAL_ENDPOINT "SYNO.Core.Terminal" "1" "get" [] "get SSH service status"
    let lo := logout t res.2.1
    (res.1, lo.2.1, tr ++ res.2.2 ++ lo.2.2)

/-- Mirrors `SynologyClient::toggle_ssh` (src/synology.rs lines 463–490):
explicit login, run the executor with a unit payload (`api_request::<(), ()>`),
always logout afterwards, return the executor result. -/
def toggle_ssh (t : Transport) (c : SynologyClient) (enable : Bool) :
    Except SynologyClientError Unit × SynologyClient × List Request :=
  match login t c with
  | (Except.error e, c1, tr) => (Except.error e, c1, tr)
  | (Except.ok _, c1, tr) =>
    let res := api_request parseUnit (fun u => u) t c1
      TERMINAL_ENDPOINT "SYNO.Core.Terminal" "1" "set"
      [("enable_ssh", if enable then "true" else "false")]
      ((if enable then "enable" else "disable") ++ " SSH service")
    let lo := logout t res.2.1
    (res.1, lo.2.1, tr ++ res.2.2 ++ lo.2.2)

/-- Mirrors `struct SynologyConfig` (src/main.rs lines 13–19). -/
structure SynologyConfig where
  client : Option SynologyClient
  nas_base_url : String
  username : String
  password : String
  force_ipv4 : Bool
deriving DecidableEq

/-- Mirrors `SynologyConfig::create_client` (src/main.rs lines 60–67). -/
def create_client (cfg : SynologyConfig) : SynologyConfig :=
  { cfg with client := some (SynologyClient.new cfg.nas_base_url cfg.username
      cfg.password cfg.force_ipv4) }

/-- Mirrors `SynologyConfig::ensure_logged_in` (src/main.rs lines 70–84):
when no client exists yet, report `Ok(false)` if either credential is
empty, otherwise create the client; report `Ok(true)` in every other case. -/
def ensure_logged_in (cfg : SynologyConfig) :
    Except ReqwestError Bool × SynologyConfig :=
  match cfg.client with
  | some _ => (Except.ok true, cfg)
  | none =>
    if cfg.username.isEmpty || cfg.password.isEmpty then
      (Except.ok false, cfg)
    else
      (Except.ok true, create_client cfg)

/-- A wire request is a logout call when it carries `method=logout`. -/
def is_logout_request (r : Request) : Bool :=
  r.params.any (fun kv => kv.1 == "method" && kv.2 == "logout")

/-- Number of logout calls in a wire trace. -/
def countLogoutCalls (tr : List Request) : Nat :=
  (tr.filter is_logout_request).length

/-- Two parameter lists agree up to masking: same length, pointwise equal
keys, and equal values wherever the key is not masked. -/
def maskAgree (params1 params2 : List (String × String))
    (mask_params : List String) : Bool :=
  (params1.length == params2.length) &&
    (params1.zip params2).all
      (fun pq => pq.1.1 == pq.2.1 &&
        (mask_params.contains pq.1.1 || pq.1.2 == pq.2.2))

/-- A freshly constructed client used as a concrete test fixture. -/
def testClient : SynologyClient :=
  SynologyClient.new "http://nas" "user" "pw" false

/-- The test client with a session already held. -/
def testClientLoggedIn : SynologyClient :=
  { testClient with sid := some "sid123" }

/-- A canned successful login envelope carrying a session id. -/
def sidEnvelope : Json :=
  Json.obj [("success", Json.jbool true),
            ("data", Json.obj [("sid", Json.str "sid123")])]

/-- Whether a request carries the given `method` query parameter. -/
def isMethod (r : Request) (m : String) : Bool :=
  r.params.any (fun kv => kv.1 == "method" && kv.2 == m)

/-- A stub server answering every operation successfully: login yields a
session id, list yields an empty file list, get yields `status: true`. -/
def okTransport : Transport := fun req =>
  if isMethod req "login" then HttpOutcome.ok (some sidEnvelope)
  else if isMethod req "logout" then HttpOutcome.ok none
  else if isMethod req "list" then
    HttpOutcome.ok (some (Json.obj
      [("success", Json.jbool true),
       ("data", Json.obj [("files", Json.arr []), ("total", Json.num 0),
                          ("offset", Json.num 0)])]))
  else if isMethod req "get" then
    HttpOutcome.ok (some (Json.obj
      [("success", Json.jbool true),
       ("data", Json.obj [("status", Json.jbool true)])]))
  else HttpOutcome.ok (some (Json.obj [("success", Json.jbool true)]))

/-- A stub server whose SSH-status payload omits all three boolean fields. -/
def sshAbsentTransport : Transport := fun req =>
  if isMethod req "login" then HttpOutcome.ok (some sidEnvelope)
  else if isMethod req "logout" then HttpOutcome.ok none
  else HttpOutcome.ok (some (Json.obj
    [("success", Json.jbool true), ("data", Json.obj [])]))

/-- A stub server that reports a bare success envelope (no data field) for
every request other than login. -/
def successOnlyTransport : Transport := fun req =>
  if isMethod req "login" then HttpOutcome.ok (some sidEnvelope)
  else HttpOutcome.ok (some (Json.obj [("success", Json.jbool true)]))

/-- A stub server that fails every operation with error code 119. -/
def err119Transport : Transport := fun req =>
  if isMethod req "login" then HttpOutcome.ok (some sidEnvelope)
  else HttpOutcome.ok (some (Json.obj
    [("success", Json.jbool false),
     ("error", Json.obj [("code", Json.num 119)])]))

/-- A stub server whose operation responses are not valid JSON at all. -/
def malformedTransport : Transport := fun req =>
  if isMethod req "login" then HttpOutcome.ok (some sidEnvelope)
  else HttpOutcome.ok none

/-- The shared error handler never produces a success value. -/
theorem handle_error_response_ne_ok {α : Type} (err : Option SynologyError)
    (op : String) (a : α) : handle_error_response err op ≠ Except.ok a := by
  cases err <;> simp [handle_error_response]

/-- Inversion for a successful login: the resulting client is the input
client with some session id stored, and exactly the login request was
sent. -/
theorem login_ok_inv (t : Transport) (c : SynologyClient)
    (c1 : SynologyClient) (tr : List Request)
    (h : login t c = (Except.ok (), c1, tr)) :
    (∃ s, c1 = { c with sid := some s }) ∧ tr = [login_request c] := by
  simp only [login] at h
  split at h
  · simp at h
  · split at h
    · simp at h
    · split at h
      · split at h
        · rw [Prod.mk.injEq, Prod.mk.injEq] at h
          exact ⟨⟨_, h.2.1.symm⟩, h.2.2.symm⟩
        · rw [Prod.mk.injEq] at h
          exact absurd h.1 (handle_error_response_ne_ok _ "Login failed" ())
      · rw [Prod.mk.injEq] at h
        exact absurd h.1 (handle_error_response_ne_ok _ "Login failed" ())

/-- When a session is held, logout sends exactly the logout request. -/
theorem logout_some_trace (t : Transport) (c : SynologyClient) (s : String)
    (h : c.sid = some s) : (logout t c).2.2 = [logout_request c s] := by
  simp only [logout, h]
  cases t (logout_request c s) <;> rfl

/-- When a session is already held, the executor skips login, sends the
operation request and decodes the answer; the client state is unchanged. -/
theorem api_request_sid_some (pT : Json → Except String T) (conv : T → R)
    (t : Transport) (c : SynologyClient) (s : String)
    (endpoint api version method : String) (addl : List (String × String))
    (op : String) (h : c.sid = some s) :
    api_request pT conv t c endpoint api version method addl op =
      (decode_result pT conv op
         (t (operation_request c endpoint api version method addl)),
       c, [operation_request c endpoint api version method addl]) := by
  simp [api_request, ensure_login, h]

/-- The login request is not a logout call. -/
theorem is_logout_login_request (c : SynologyClient) :
    is_logout_request (login_request c) = false := rfl

/-- The logout request is a logout call. -/
theorem is_logout_logout_request (c : SynologyClient) (s : String) :
    is_logout_request (logout_request c s) = true := rfl

/-- The list-files operation request is not a logout call. -/
theorem is_logout_op_list (c : SynologyClient) (p : String) :
    is_logout_request (operation_request c FILESTATION_ENDPOINT
      "SYNO.FileStation.List" "2" "list" [("folder_path", p)]) = false := rfl

/-- The get-ssh-status operation request is not a logout call. -/
theorem is_logout_op_get (c : SynologyClient) :
    is_logout_request (operation_request c TERMINAL_ENDPOINT
      "SYNO.Core.Terminal" "1" "get" []) = false := rfl

/-- The set-ssh operation request is not a logout call. -/
theorem is_logout_op_set (c : SynologyClient) (v : String) :
    is_logout_request (operation_request c TERMINAL_ENDPOINT
      "SYNO.Core.Terminal" "1" "set" [("enable_ssh", v)]) = false := rfl

/-- An `Option<()>` field can never deserialize to `Some(())`: serde maps
both an absent field and `null` to `None`, and the unit deserializer
rejects every other JSON value. -/
theorem optField_parseUnit_ne_some (fields : List (String × Json))
    (names : List String) (u : Unit) :
    optField fields names parseUnit ≠ Except.ok (some u) := by
  rcases hlf : lookupField fields names with _ | v
  · simp [optField, hlf]
  · cases v <;> simp [optField, hlf, parseUnit, Except.map]

/-- Any successfully parsed `SynologyResponse<()>` has no data payload. -/
theorem parseUnit_envelope_data_none (body : Option Json)
    (resp : SynologyResponse Unit)
    (h : parseBody parseUnit body = Except.ok resp) : resp.data = none := by
  rcases body with _ | j
  · simp [parseBody] at h
  · rcases j with _ | b | n | s | xs | fields
    · simp [parseBody, parseSynologyResponse] at h
    · simp [parseBody, parseSynologyResponse] at h
    · simp [parseBody, parseSynologyResponse] at h
    · simp [parseBody, parseSynologyResponse] at h
    · simp [parseBody, parseSynologyResponse] at h
    · rcases hs : reqField fields ["success"] parseBool with es | sv
      · simp [parseBody, parseSynologyResponse, hs, Bind.bind, Except.bind] at h
      · rcases hd : optField fields ["data"] parseUnit with ed | dv
        · simp [parseBody, parseSynologyResponse, hs, hd, Bind.bind,
            Except.bind] at h
        · rcases he : optField fields ["error"] parseSynologyError with ee | ev
          · simp [parseBody, parseSynologyResponse, hs, hd, he, Bind.bind,
              Except.bind] at h
          · simp [parseBody, parseSynologyResponse, hs, hd, he, Bind.bind,
              Except.bind] at h
            rcases dv with _ | u
            · rw [← h]
            · exact absurd hd (optField_parseUnit_ne_some fields ["data"] u)

/-- The decode step with a unit payload never produces a success value. -/
theorem decode_result_unit_ne_ok (conv : Unit → Unit) (op : String)
    (o : HttpOutcome) (u : Unit) :
    decode_result parseUnit conv op o ≠ Except.ok u := by
  rcases o with e | body
  · simp [decode_result]
  · simp only [decode_result]
    rcases hp : parseBody parseUnit body with pe | resp
    · simp
    · have hd := parseUnit_envelope_data_none body resp hp
      rcases hsucc : resp.success with _ | _
      · simp only [hsucc, Bool.false_eq_true, if_false]
        exact handle_error_response_ne_ok _ _ u
      · simp only [hsucc, if_true, hd]
        exact handle_error_response_ne_ok _ _ u

/-- The executor with a unit payload never produces a success value. -/
theorem api_request_unit_ne_ok (conv : Unit → Unit) (t : Transport)
    (c : SynologyClient) (endpoint api version method : String)
    (addl : List (String × String)) (op : String) (u : Unit) :
    (api_request parseUnit conv t c endpoint api version method addl op).1 ≠
      Except.ok u := by
  unfold api_request
  rcases hel : ensure_login t c with ⟨r, c1, tr⟩
  rcases r with e | b
  · simp
  · rcases b with _ | _
    · simp
    · simp only [Bool.not_true, Bool.false_eq_true, if_false]
      exact decode_result_unit_ne_ok conv op _ u

/-- `toggle_ssh` can never report success: the set operation's success
envelope carries no decodable unit payload. -/
theorem toggle_ssh_never_ok_aux (t : Transport) (c : SynologyClient)
    (b : Bool) : (toggle_ssh t c b).1 ≠ Except.ok () := by
  unfold toggle_ssh
  rcases hl : login t c with ⟨r, c1, tr⟩
  rcases r with e | u
  · simp
  · exact api_request_unit_ne_ok _ _ _ _ _ _ _ _ _ ()

/-- Code 119 resolves to the documented invalid-session string. -/
theorem get_error_description_119 (e : SynologyError) (h : e.code = 119) :
    SynologyError.get_error_description e = "Invalid session." := by
  rcases e with ⟨code, det⟩
  have hc : code = 119 := h
  subst hc
  rfl

/-- Codes in the reserved range 120–149 resolve to the generic message. -/
theorem get_error_description_reserved (e : SynologyError)
    (h1 : 120 ≤ e.code) (h2 : e.code ≤ 149) :
    SynologyError.get_error_description e = "Preserve for other purpose." := by
  rcases e with ⟨code, det⟩
  have h1x : 120 ≤ code := h1
  have h2x : code ≤ 149 := h2
  clear h1 h2
  interval_cases code <;> rfl

/-- Codes outside the documented set resolve to the fallback text. -/
theorem get_error_description_fallback (e : SynologyError)
    (h : e.code < 100 ∨ 150 < e.code) :
    SynologyError.get_error_description e = "Unknown error code." := by
  rcases h with h | h <;>
  · unfold SynologyError.get_error_description
    iterate 22 rw [if_neg (by omega)]

/-- The description table is total: every code yields a nonempty string. -/
theorem get_error_description_total (e : SynologyError) :
    SynologyError.get_error_description e ≠ "" := by
  by_cases h : e.code < 100 ∨ 150 < e.code
  · rw [get_error_description_fallback e h]
    decide
  · push_neg at h
    rcases e with ⟨code, det⟩
    have h1x : 100 ≤ code := h.1
    have h2x : code ≤ 150 := h.2
    clear h
    interval_cases code <;> simp [SynologyError.get_error_description]

/-- A trace of a non-logout call, a non-logout call and a logout call
holds exactly one logout call. -/
theorem countLogout_three (a b r : Request) (h1 : is_logout_request a = false)
    (h2 : is_logout_request b = false) (h3 : is_logout_request r = true) :
    countLogoutCalls ([a] ++ [b] ++ [r]) = 1 := by
  simp [countLogoutCalls, List.filter_cons, h1, h2, h3]

/-- The query-string loop produces the same output for parameter lists
that agree up to masking, from any accumulator. -/
theorem curl_foldl_congr (mask : List String) :
    ∀ (params1 params2 : List (String × String)) (acc : String × Bool),
      maskAgree params1 params2 mask = true →
      params1.foldl (curlStep mask) acc = params2.foldl (curlStep mask) acc := by
  intro params1
  induction params1 with
  | nil =>
    intro params2 acc h
    cases params2 with
    | nil => rfl
    | cons b bs => simp [maskAgree] at h
  | cons a as ih =>
    intro params2 acc h
    cases params2 with
    | nil => simp [maskAgree] at h
    | cons b bs =>
      simp only [maskAgree, List.length_cons, List.zip_cons_cons, List.all_cons,
        Bool.and_eq_true, beq_iff_eq, Bool.or_eq_true] at h
      obtain ⟨hlen, ⟨hk, hv⟩, hall⟩ := h
      have htail : maskAgree as bs mask = true := by
        simp only [maskAgree, Bool.and_eq_true, beq_iff_eq]
        exact ⟨by omega, hall⟩
      have hstep : curlStep mask acc a = curlStep mask acc b := by
        rcases a with ⟨ak, av⟩
        rcases b with ⟨bk, bv⟩
        have hk2 : ak = bk := hk
        subst hk2
        rcases hv with hv | hv
        · have hm : mask.contains ak = true := hv
          have hmem : ak ∈ mask := by simpa using hm
          simp [curlStep, maskValue, hmem]
        · have hv2 : av = bv := hv
          subst hv2
          rfl
      simp only [List.foldl_cons, hstep]
      exact ih bs (curlStep mask acc b) htail

/-- C1: for each domain operation, once the opening login has succeeded,
the operation's result is exactly the executor's result — quantified over
every transport, so in particular a failing logout never changes it — and
the wire trace contains exactly one logout call, issued after the
operation request. -/
theorem claim1_logout_bracket (t : Transport) (c : SynologyClient)
    (folder_path : String) (enable : Bool) (c1 : SynologyClient)
    (tr1 : List Request)
    (h : login t c = (Except.ok (), c1, tr1)) :
    ((list_files t c folder_path).1 =
        (api_request parseFileListData FileListData.toFiles t c1
          FILESTATION_ENDPOINT "SYNO.FileStation.List" "2" "list"
          [("folder_path", folder_path)] ("list files in " ++ folder_path)).1 ∧
      countLogoutCalls (list_files t c folder_path).2.2 = 1) ∧
    ((get_ssh_status t c).1 =
        (api_request parseServiceStatusData ServiceStatusData.toBool t c1
          TERMINAL_ENDPOINT "SYNO.Core.Terminal" "1" "get" []
          "get SSH service status").1 ∧
      countLogoutCalls (get_ssh_status t c).2.2 = 1) ∧
    ((toggle_ssh t c enable).1 =
        (api_request parseUnit (fun u => u) t c1 TERMINAL_ENDPOINT
          "SYNO.Core.Terminal" "1" "set"
          [("enable_ssh", if enable then "true" else "false")]
          ((if enable then "enable" else "disable") ++ " SSH service")).1 ∧
      countLogoutCalls (toggle_ssh t c enable).2.2 = 1) := by
  obtain ⟨⟨s, hc1⟩, htr⟩ := login_ok_inv t c c1 tr1 h
  have hsid : c1.sid = some s := by rw [hc1]
  refine ⟨⟨?_, ?_⟩, ⟨?_, ?_⟩, ⟨?_, ?_⟩⟩
  · simp only [list_files, h]
  · simp only [list_files, h,
      api_request_sid_some parseFileListData FileListData.toFiles t c1 s
        FILESTATION_ENDPOINT "SYNO.FileStation.List" "2" "list"
        [("folder_path", folder_path)] ("list files in " ++ folder_path) hsid,
      logout_some_trace t c1 s hsid, htr]
    exact countLogout_three _ _ _ (is_logout_login_request c)
      (is_logout_op_list c1 folder_path) (is_logout_logout_request c1 s)
  · simp only [get_ssh_status, h]
  · simp only [get_ssh_status, h,
      api_request_sid_some parseServiceStatusData ServiceStatusData.toBool t c1 s
        TERMINAL_ENDPOINT "SYNO.Core.Terminal" "1" "get" []
        "get SSH service status" hsid,
      logout_some_trace t c1 s hsid, htr]
    exact countLogout_three _ _ _ (is_logout_login_request c)
      (is_logout_op_get c1) (is_logout_logout_request c1 s)
  · simp only [toggle_ssh, h]
  · simp only [toggle_ssh, h,
      api_request_sid_some parseUnit (fun u => u) t c1 s TERMINAL_ENDPOINT
        "SYNO.Core.Terminal" "1" "set"
        [("enable_ssh", if enable then "true" else "false")]
        ((if enable then "enable" else "disable") ++ " SSH service") hsid,
      logout_some_trace t c1 s hsid, htr]
    exact countLogout_three _ _ _ (is_logout_login_request c)
      (is_logout_op_set c1 (if enable then "true" else "false"))
      (is_logout_logout_request c1 s)

/-- C9: the executor guards on the session check — in the branch where
`ensure_login` would report a session-less success, it fails with the
`LoginFailed` error kind and sends no request beyond those already issued
by `ensure_login` itself; and `LoginFailed` is distinct from every
Synology-reported (Protocol) error and every transport error. -/
theorem claim9_login_failed_guard (pT : Json → Except String T) (conv : T → R)
    (t : Transport) (c : SynologyClient)
    (endpoint api version method : String) (addl : List (String × String))
    (op : String) :
    (match ensure_login t c with
     | (Except.ok false, c1, tr) =>
        api_request pT conv t c endpoint api version method addl op =
          (Except.error SynologyClientError.LoginFailed, c1, tr)
     | _ => True) ∧
    (∀ e : SynologyError,
       (SynologyClientError.LoginFailed : SynologyClientError) ≠
         SynologyClientError.Synology e) ∧
    (∀ e : ReqwestError,
       (SynologyClientError.LoginFailed : SynologyClientError) ≠
         SynologyClientError.Reqwest e) := by
  refine ⟨?_, ?_, ?_⟩
  · rcases hel : ensure_login t c with ⟨r, c1, tr⟩
    rcases r with e | b
    · trivial
    · rcases b with _ | _
      · have hgoal : api_request pT conv t c endpoint api version method addl op =
            (Except.error SynologyClientError.LoginFailed, c1, tr) := by
          unfold api_request
          rw [hel]
          rfl
        exact hgoal
      · trivial
  · intro e hcontra
    exact SynologyClientError.noConfusion hcontra
  · intro e hcontra
    exact SynologyClientError.noConfusion hcontra

/-- C10: the curl-equivalent logging representation masks credentials:
any two parameter lists that agree up to the values of masked keys
produce the identical curl command string, and in particular the string
logged for a login request is independent of the configured password
(with `passwd` masked, as at the login call site). -/
theorem claim10_curl_masking :
    (∀ (url : String) (mask : List String)
       (params1 params2 : List (String × String)),
       maskAgree params1 params2 mask = true →
       to_curl_command url params1 mask = to_curl_command url params2 mask) ∧
    (∀ (c : SynologyClient) (pw2 : String),
       to_curl_command (c.get_url AUTH_ENDPOINT) (login_request c).params
          ["passwd"] =
       to_curl_command (c.get_url AUTH_ENDPOINT)
          (login_request { c with password := pw2 }).params ["passwd"]) := by
  have hmain : ∀ (url : String) (mask : List String)
      (params1 params2 : List (String × String)),
      maskAgree params1 params2 mask = true →
      to_curl_command url params1 mask = to_curl_command url params2 mask := by
    intro url mask params1 params2 hagree
    unfold to_curl_command buildQueryUrl
    rw [curl_foldl_congr mask params1 params2 (url, true) hagree]
  refine ⟨hmain, ?_⟩
  intro c pw2
  apply hmain
  simp [maskAgree, login_request]

/-- C2: calling `toggle_ssh true` twice in sequence against a stub server
that reports a bare `{success: true}` envelope for the set operation does
NOT return success: both calls return the Generic unknown-error value,
because a success envelope without a decodable data payload is routed to
the error handler.  This refutes the claim that both calls succeed. -/
theorem claim2_set_ssh_twice_generic_error :
    (toggle_ssh successOnlyTransport testClient true).1 =
      Except.error (SynologyClientError.Generic
        "enable SSH service failed with unknown error") ∧
    (toggle_ssh successOnlyTransport
        (toggle_ssh successOnlyTransport testClient true).2.1 true).1 =
      Except.error (SynologyClientError.Generic
        "enable SSH service failed with unknown error") :=
  ⟨rfl, rfl⟩

/-- C3: the configuration wrapper's `ensure_logged_in` reports the boolean
`false` (not an error) when no client exists and either credential is
empty, leaving the state unchanged so repeated calls keep reporting
`false`; it reports `true` whenever a client (the holder of any obtained
session id) exists; and it never returns an error value, so the
missing-credentials case is distinguishable from a protocol failure. -/
theorem claim3_ensure_logged_in_returns_bool :
    (∀ cfg : SynologyConfig, cfg.client = none →
       (cfg.username.isEmpty || cfg.password.isEmpty) = true →
       ensure_logged_in cfg = (Except.ok false, cfg)) ∧
    (∀ cfg : SynologyConfig, cfg.client = none →
       (cfg.username.isEmpty || cfg.password.isEmpty) = false →
       ensure_logged_in cfg = (Except.ok true, create_client cfg)) ∧
    (∀ (cfg : SynologyConfig) (cl : SynologyClient), cfg.client = some cl →
       ensure_logged_in cfg = (Except.ok true, cfg)) ∧
    (∀ cfg : SynologyConfig, ∃ b : Bool,
       (ensure_logged_in cfg).1 = Except.ok b) ∧
    (∀ (b : Bool) (e : ReqwestError),
       (Except.ok b : Except ReqwestError Bool) ≠ Except.error e) := by
  refine ⟨?_, ?_, ?_, ?_, ?_⟩
  · intro cfg h1 h2
    simp [ensure_logged_in, h1, h2]
  · intro cfg h1 h2
    simp [ensure_logged_in, h1, h2]
  · intro cfg cl h
    simp [ensure_logged_in, h]
  · intro cfg
    rcases hc : cfg.client with _ | cl
    · by_cases hcred : (cfg.username.isEmpty || cfg.password.isEmpty) = true
      · exact ⟨false, by simp [ensure_logged_in, hc, hcred]⟩
      · have hcred2 : (cfg.username.isEmpty || cfg.password.isEmpty) = false := by
          simpa using hcred
        exact ⟨true, by simp [ensure_logged_in, hc, hcred2]⟩
    · exact ⟨true, by simp [ensure_logged_in, hc]⟩
  · intro b e h
    exact Except.noConfusion h

/-- C4: the SSH status derived from a decoded payload is true exactly when
at least one of the three possible boolean fields is present and true;
an empty data object parses to the all-absent payload, and the whole
get-ssh-status operation then reports `false` rather than an error. -/
theorem claim4_ssh_status_disjunction :
    (∀ d : ServiceStatusData,
       ServiceStatusData.toBool d = true ↔
         (d.service_status = true ∨ d.enable_ssh = some true ∨
          d.status = some true)) ∧
    parseServiceStatusData (Json.obj []) =
      Except.ok { service_status := false, enable_ssh := none, status := none } ∧
    (get_ssh_status sshAbsentTransport testClient).1 = Except.ok false := by
  refine ⟨?_, rfl, rfl⟩
  have hopt : ∀ o : Option Bool, (o.getD false = true) ↔ o = some true := by
    intro o
    cases o <;> simp
  intro d
  simp [ServiceStatusData.toBool, Bool.or_eq_true, hopt, or_assoc]

/-- C5: when the transport answers an operation with an envelope reporting
`success: false` together with an error object, the executor fails with
the Synology (Protocol) error carrying exactly that error value; the
description of any such code is resolved by the static table — 119 yields
the documented invalid-session string, the whole reserved range 120–149
yields the generic reserved message, any code outside the documented set
yields the fallback text, and the lookup is total (always some nonempty
string). -/
theorem claim5_protocol_error_description (pT : Json → Except String T)
    (conv : T → R) (t : Transport) (c : SynologyClient) (s : String)
    (endpoint api version method : String) (addl : List (String × String))
    (op : String) (body : Option Json) (resp : SynologyResponse T)
    (err : SynologyError)
    (hs : c.sid = some s)
    (ht : t (operation_request c endpoint api version method addl) =
      HttpOutcome.ok body)
    (hp : parseBody pT body = Except.ok resp)
    (hfail : resp.success = false)
    (herr : resp.error = some err) :
    (api_request pT conv t c endpoint api version method addl op).1 =
      Except.error (SynologyClientError.Synology err) ∧
    (err.code = 119 →
       SynologyError.get_error_description err = "Invalid session.") ∧
    (∀ e2 : SynologyError, 120 ≤ e2.code → e2.code ≤ 149 →
       SynologyError.get_error_description e2 = "Preserve for other purpose.") ∧
    (∀ e2 : SynologyError, e2.code < 100 ∨ 150 < e2.code →
       SynologyError.get_error_description e2 = "Unknown error code.") ∧
    (∀ e2 : SynologyError, SynologyError.get_error_description e2 ≠ "") := by
  refine ⟨?_, get_error_description_119 err, get_error_description_reserved,
    get_error_description_fallback, get_error_description_total⟩
  rw [api_request_sid_some pT conv t c s endpoint api version method addl op hs]
  rw [ht]
  simp only [decode_result]
  rw [hp]
  simp only [hfail, Bool.false_eq_true, if_false, herr, handle_error_response]

/-- C6: whenever the transport delivers a body that does not parse as the
expected envelope shape — on any endpoint — the executor returns a
Generic (malformed response) error carrying the parser's diagnostic; such
an error is never a success value. -/
theorem claim6_malformed_body_generic (pT : Json → Except String T)
    (conv : T → R) (t : Transport) (c : SynologyClient) (s : String)
    (endpoint api version method : String) (addl : List (String × String))
    (op : String) (body : Option Json) (e : String)
    (hs : c.sid = some s)
    (ht : t (operation_request c endpoint api version method addl) =
      HttpOutcome.ok body)
    (hp : parseBody pT body = Except.error e) :
    (api_request pT conv t c endpoint api version method addl op).1 =
      Except.error (SynologyClientError.Generic ("JSON parsing error: " ++ e)) ∧
    (∀ r0 : R,
       (Except.error (SynologyClientError.Generic ("JSON parsing error: " ++ e)) :
         Except SynologyClientError R) ≠ Except.ok r0) := by
  constructor
  · rw [api_request_sid_some pT conv t c s endpoint api version method addl op hs]
    rw [ht]
    simp only [decode_result]
    rw [hp]
  · intro r0 hcontra
    exact Except.noConfusion hcontra

/-- C7: an envelope with `success: true` but no data payload is treated by
the executor as a failure — a Synology (Protocol) error when an error
object is present, otherwise the Generic unknown-error value; as a
consequence, `toggle_ssh`, whose success responses carry no decodable unit
payload, can never return success. -/
theorem claim7_success_without_data_is_failure (pT : Json → Except String T)
    (conv : T → R) (t : Transport) (c : SynologyClient) (s : String)
    (endpoint api version method : String) (addl : List (String × String))
    (op : String) (body : Option Json) (resp : SynologyResponse T)
    (hs : c.sid = some s)
    (ht : t (operation_request c endpoint api version method addl) =
      HttpOutcome.ok body)
    (hp : parseBody pT body = Except.ok resp)
    (hsucc : resp.success = true)
    (hdata : resp.data = none) :
    ((resp.error = none →
        (api_request pT conv t c endpoint api version method addl op).1 =
          Except.error (SynologyClientError.Generic
            (op ++ " failed with unknown error"))) ∧
     (∀ err : SynologyError, resp.error = some err →
        (api_request pT conv t c endpoint api version method addl op).1 =
          Except.error (SynologyClientError.Synology err))) ∧
    (∀ (t2 : Transport) (c2 : SynologyClient) (b : Bool),
       (toggle_ssh t2 c2 b).1 ≠ Except.ok ()) := by
  refine ⟨⟨?_, ?_⟩, toggle_ssh_never_ok_aux⟩
  · intro herr
    rw [api_request_sid_some pT conv t c s endpoint api version method addl op hs]
    rw [ht]
    simp only [decode_result]
    rw [hp]
    simp only [hsucc, if_true, hdata, herr, handle_error_response]
    rw [String.append_assoc]
    rfl
  · intro err herr
    rw [api_request_sid_some pT conv t c s endpoint api version method addl op hs]
    rw [ht]
    simp only [decode_result]
    rw [hp]
    simp only [hsucc, if_true, hdata, herr, handle_error_response]

/-- C8: `logout` is a no-op success when no session is held, leaving the
client unchanged; with a session it sends the logout request carrying the
current sid and clears the session exactly when the HTTP layer reports
success — for every response body alike, since the body is never
inspected — while an HTTP-level failure propagates with the sid kept. -/
theorem claim8_logout_state_semantics (t : Transport) (c : SynologyClient) :
    (c.sid = none → logout t c = (Except.ok (), c, [])) ∧
    (∀ s : String, c.sid = some s →
      (∀ e : ReqwestError, t (logout_request c s) = HttpOutcome.fail e →
         logout t c =
           (Except.error (SynologyClientError.Reqwest e), c, [logout_request c s])) ∧
      (∀ body : Option Json, t (logout_request c s) = HttpOutcome.ok body →
         logout t c = (Except.ok (), { c with sid := none }, [logout_request c s]))) := by
  constructor
  · intro h
    simp [logout, h]
  · intro s hs
    constructor
    · intro e he
      simp [logout, hs, he]
    · intro body hb
      simp [logout, hs, hb]

/-- Witness for C1 at the concrete stub transport: each bracketed
operation issues exactly one logout call. -/
theorem claim1_logout_bracket_witness :
    countLogoutCalls (list_files okTransport testClient "/tmp").2.2 = 1 ∧
    countLogoutCalls (get_ssh_status okTransport testClient).2.2 = 1 ∧
    countLogoutCalls (toggle_ssh okTransport testClient true).2.2 = 1 := by
  have h := claim1_logout_bracket okTransport testClient "/tmp" true
    testClientLoggedIn [login_request testClient] rfl
  exact ⟨h.1.2, h.2.1.2, h.2.2.2⟩

/-- Witness for C3: empty credentials yield the boolean false. -/
theorem claim3_ensure_logged_in_witness :
    ensure_logged_in ⟨none, "http://nas", "", "", false⟩ =
      (Except.ok false, ⟨none, "http://nas", "", "", false⟩) :=
  claim3_ensure_logged_in_returns_bool.1 ⟨none, "http://nas", "", "", false⟩
    rfl rfl

/-- Witness for C4: the all-absent success envelope yields false. -/
theorem claim4_ssh_status_witness :
    (get_ssh_status sshAbsentTransport testClient).1 = Except.ok false :=
  claim4_ssh_status_disjunction.2.2

/-- Witness for C5 at a concrete stub failing with code 119. -/
theorem claim5_protocol_error_witness :
    (api_request parseUnit (fun u => u) err119Transport testClientLoggedIn
        TERMINAL_ENDPOINT "SYNO.Core.Terminal" "1" "get" []
        "get SSH service status").1 =
      Except.error (SynologyClientError.Synology ⟨119, none⟩) ∧
    SynologyError.get_error_description ⟨119, none⟩ = "Invalid session." := by
  have h := claim5_protocol_error_description parseUnit (fun u => u)
    err119Transport testClientLoggedIn "sid123" TERMINAL_ENDPOINT
    "SYNO.Core.Terminal" "1" "get" [] "get SSH service status"
    (some (Json.obj [("success", Json.jbool false),
                     ("error", Json.obj [("code", Json.num 119)])]))
    ⟨false, none, some ⟨119, none⟩⟩ ⟨119, none⟩ rfl rfl rfl rfl rfl
  exact ⟨h.1, h.2.1 rfl⟩

/-- Witness for C6 at a concrete stub answering with a non-JSON body. -/
theorem claim6_malformed_body_witness :
    (api_request parseUnit (fun u => u) malformedTransport testClientLoggedIn
        TERMINAL_ENDPOINT "SYNO.Core.Terminal" "1" "get" []
        "get SSH service status").1 =
      Except.error (SynologyClientError.Generic
        ("JSON parsing error: " ++ "expected value")) :=
  (claim6_malformed_body_generic parseUnit (fun u => u) malformedTransport
    testClientLoggedIn "sid123" TERMINAL_ENDPOINT "SYNO.Core.Terminal" "1"
    "get" [] "get SSH service status" none "expected value" rfl rfl rfl).1

/-- Witness for C7 at a concrete bare success envelope. -/
theorem claim7_success_without_data_witness :
    (api_request parseUnit (fun u => u) successOnlyTransport testClientLoggedIn
        TERMINAL_ENDPOINT "SYNO.Core.Terminal" "1" "set"
        [("enable_ssh", "true")] "enable SSH service").1 =
      Except.error (SynologyClientError.Generic
        "enable SSH service failed with unknown error") ∧
    (toggle_ssh okTransport testClient false).1 ≠ Except.ok () := by
  have h := claim7_success_without_data_is_failure parseUnit (fun u => u)
    successOnlyTransport testClientLoggedIn "sid123" TERMINAL_ENDPOINT
    "SYNO.Core.Terminal" "1" "set" [("enable_ssh", "true")]
    "enable SSH service" (some (Json.obj [("success", Json.jbool true)]))
    ⟨true, none, none⟩ rfl rfl rfl rfl rfl
  exact ⟨h.1.1 rfl, h.2 okTransport testClient false⟩

/-- Witness for C8: both the no-session no-op and the session-clearing
success at concrete inputs. -/
theorem claim8_logout_state_witness :
    logout okTransport testClient = (Except.ok (), testClient, []) ∧
    logout okTransport testClientLoggedIn =
      (Except.ok (), { testClientLoggedIn with sid := none },
       [logout_request testClientLoggedIn "sid123"]) := by
  have h1 := claim8_logout_state_semantics okTransport testClient
  have h2 := claim8_logout_state_semantics okTransport testClientLoggedIn
  exact ⟨h1.1 rfl, (h2.2 "sid123" rfl).2 none rfl⟩

/-- Witness for C9: LoginFailed is distinct from a concrete Protocol
error. -/
theorem claim9_login_failed_witness :
    (SynologyClientError.LoginFailed : SynologyClientError) ≠
      SynologyClientError.Synology ⟨119, none⟩ :=
  (claim9_login_failed_guard parseUnit (fun u => u) okTransport testClient
    TERMINAL_ENDPOINT "SYNO.Core.Terminal" "1" "get" []
    "get SSH service status").2.1 ⟨119, none⟩

/-- Witness for C10: two concrete parameter lists differing only in the
masked password produce the identical curl command. -/
theorem claim10_curl_masking_witness :
    to_curl_command "http://nas/webapi/entry.cgi"
      [("account", "user"), ("passwd", "secretA")] ["passwd"] =
    to_curl_command "http://nas/webapi/entry.cgi"
      [("account", "user"), ("passwd", "secretB")] ["passwd"] :=
  claim10_curl_masking.1 "http://nas/webapi/entry.cgi" ["passwd"]
    [("account", "user"), ("passwd", "secretA")]
    [("account", "user"), ("passwd", "secretB")] rfl

end SynologyBot
